import Mathlib

/-!
# tomviz `ModuleContour`

A shallow embedding of `src/tomviz/ModuleContour.cxx`.

* A proxy (`vtkSMProxy`) is an address together with the state of the object
  behind it: its named properties and the values last pushed to the VTK
  objects.
* A `pugi::xml_node` is a tree of named elements; a handle to a child is its
  position among the children of its parent.
* Everything the file calls but does not define (the helper pair
  `tomviz::serialize` / `tomviz::deserialize` of `Utilities.h`, the
  superclass `Module`, the proxy manager and the pipeline controller) is a
  field of `Externals`.
* Every operation that talks to the outside also returns the list of the
  external calls it made, in order (`Event`).
-/

namespace tomviz

/-! ## Values, proxies, XML -/

/-- An IEEE-754 `double`, as its 64-bit pattern. The module only copies doubles. -/
structure Double where
  bits : Nat
deriving DecidableEq, Repr

/-- The literal `0` converted to `double`: all bits clear. -/
def Double.zero : Double := ⟨0⟩

/-- A `vtkSMProxy*`: the address of the proxy object. -/
abbrev ProxyPtr := Nat

/-- The null pointer. -/
def nullptr : ProxyPtr := 0

/-- The value of a proxy property, as `vtkSMPropertyHelper` sets it. -/
inductive PropValue where
  | unset
  | ints (v : List Int)
  | doubles (v : List Double)
  | text (v : String)
  | proxy (p : ProxyPtr)
  | inputArray (association : Int) (name : String)
deriving DecidableEq, Repr

/-- The state of a proxy object: the properties set on it and the values that
`UpdateVTKObjects` pushed last. -/
structure ProxyState where
  properties : String → PropValue
  vtkObjects : String → PropValue

/-- A proxy as the module holds it (`vtkSmartPointer` / `vtkWeakPointer`): the
address `Get()` returns and the state of the object at that address. -/
structure SmartProxy where
  ptr : ProxyPtr
  obj : ProxyState

/-- Embeds `vtkSMPropertyHelper(proxy, name).Set(value)`. -/
def vtkSMPropertyHelper.Set (obj : ProxyState) (name : String) (v : PropValue) : ProxyState :=
  { obj with properties := fun n => if n = name then v else obj.properties n }

/-- Embeds `vtkSMPropertyHelper(proxy, name).Set(values, count)`: the first `count`
doubles starting at the pointer `values`. -/
def vtkSMPropertyHelper.SetDoubles (obj : ProxyState) (name : String)
    (values : List Double) (count : Nat) : ProxyState :=
  vtkSMPropertyHelper.Set obj name (.doubles (values.take count))

/-- Embeds `proxy->UpdateVTKObjects()`: push the properties to the VTK objects. -/
def UpdateVTKObjects (obj : ProxyState) : ProxyState :=
  { obj with vtkObjects := obj.properties }

/-- An XML element: its name, its attributes and its child elements in document order. -/
inductive XmlNode where
  | mk (name : String) (attributes : List (String × String)) (children : List XmlNode)

/-- The name of an element. -/
def XmlNode.name : XmlNode → String
  | .mk n _ _ => n

/-- The attributes of an element. -/
def XmlNode.attributes : XmlNode → List (String × String)
  | .mk _ a _ => a

/-- The child elements of an element. -/
def XmlNode.children : XmlNode → List XmlNode
  | .mk _ _ c => c

/-- What a writer puts into an element it was handed: attributes and children. -/
abbrev XmlContent := List (String × String) × List XmlNode

/-- Embeds `ns.append_child(name)`: a new empty element at the end of the children;
the handle returned is the position of the new child. -/
def XmlNode.append_child (ns : XmlNode) (name : String) : XmlNode × Nat :=
  (.mk ns.name ns.attributes (ns.children ++ [.mk name [] []]), ns.children.length)

/-- The element behind a child handle (an element with an empty name when the
handle is stale). -/
def XmlNode.nodeAt (ns : XmlNode) (node : Nat) : XmlNode :=
  ns.children.getD node (.mk "" [] [])

/-- The effect on `ns` of writing `content` through the child handle `node`:
the child keeps its name and gets the content. -/
def XmlNode.write (ns : XmlNode) (node : Nat) (content : XmlContent) : XmlNode :=
  .mk ns.name ns.attributes
    (ns.children.set node (.mk (ns.nodeAt node).name content.1 content.2))

/-- Embeds `ns.remove_child(node)`. -/
def XmlNode.remove_child (ns : XmlNode) (node : Nat) : XmlNode :=
  .mk ns.name ns.attributes (ns.children.eraseIdx node)

/-- Embeds `ns.child(name)`: the first child with that name, `none` for the empty handle. -/
def XmlNode.child (ns : XmlNode) (name : String) : Option XmlNode :=
  ns.children.find? (fun c => c.name == name)

/-! ## The module -/

/-- One `pqPropertyLinks::addPropertyLink` call: a widget property tied to a
property of a proxy. -/
structure PropertyLink where
  widget : String
  qtProperty : String
  signal : String
  proxy : ProxyPtr
  property : String
deriving DecidableEq, Repr

/-- Embeds `ModuleContour::Private`. -/
structure Private where
  NonLabelMapArrayName : String
  Links : List PropertyLink

/-- The state of a `ModuleContour`: the superclass part (of a type `σ` this
file does not fix), the three proxies and the internals. -/
structure ModuleContour (σ : Type) where
  Superclass : σ
  ContourFilter : SmartProxy
  ContourRepresentation : SmartProxy
  ResampleFilter : SmartProxy
  Internals : Private
  connections : List (String × String)

/-- A `DataSource`, as far as the module reads it. -/
structure DataSource where
  producer : ProxyPtr
  displayPosition : List Double

/-- The code `ModuleContour.cxx` calls and does not define. -/
structure Externals (σ : Type) where
  /-- Stands for `tomviz::serialize(proxy, node, properties)`: the result and what it wrote into `node`. -/
  serialize : ProxyPtr → ProxyState → XmlNode → List String → Bool × XmlContent
  /-- Stands for `tomviz::deserialize(proxy, node)`: the result and the proxy afterwards. -/
  deserialize : ProxyPtr → ProxyState → Option XmlNode → Bool × ProxyState
  /-- Stands for `Superclass::serialize(ns)`. -/
  superSerialize : ModuleContour σ → XmlNode → Bool × XmlNode
  /-- Stands for `Superclass::deserialize(ns)`. -/
  superDeserialize : ModuleContour σ → XmlNode → Bool × ModuleContour σ
  /-- Stands for `Superclass::initialize(data, vtkView)`. -/
  superInitialize : ModuleContour σ → DataSource → ProxyPtr → Bool × ModuleContour σ
  /-- Stands for `this->colorMap()`. -/
  colorMap : ModuleContour σ → ProxyPtr
  /-- Stands for `this->colorByLabelMap()`. -/
  colorByLabelMap : ModuleContour σ → Bool
  /-- Stands for `vtkSMSourceProxy::SafeDownCast(pxm->NewProxy(group, name))`. -/
  NewProxy : String → String → SmartProxy
  /-- Stands for `controller->PreInitializeProxy(proxy)`. -/
  PreInitializeProxy : ProxyState → ProxyState
  /-- Stands for `controller->PostInitializeProxy(proxy)`. -/
  PostInitializeProxy : ProxyState → ProxyState
  /-- Stands for `controller->RegisterPipelineProxy(proxy)`. -/
  RegisterPipelineProxy : ProxyState → ProxyState
  /-- Stands for `controller->Show(producer, port, view)`. -/
  Show : SmartProxy → Nat → ProxyPtr → SmartProxy

/-- An external call, or a warning, made while an operation runs. -/
inductive Event where
  | helperSerialize (proxy : ProxyPtr) (element : String) (properties : List String)
  | helperDeserialize (proxy : ProxyPtr) (element : String)
  | superSerialize
  | superDeserialize
  | qWarning (msg : String)
deriving DecidableEq, Repr

/-- What `serialize` leaves behind: the return value, the node and the calls made. -/
structure Serialized where
  ret : Bool
  ns : XmlNode
  log : List Event

/-- What `deserialize` leaves behind: the return value, the module and the calls made. -/
structure Deserialized (σ : Type) where
  ret : Bool
  module : ModuleContour σ
  log : List Event

/-- The list `contourProperties` of `ModuleContour::serialize`. -/
def contourProperties : List String := ["ContourValues"]

/-- The list `contourRepresentationProperties` of `ModuleContour::serialize`. -/
def contourRepresentationProperties : List String :=
  ["Representation", "Opacity", "Specular", "Visibility"]

/-- Embeds `ModuleContour::serialize(ns)`. -/
def serialize {σ : Type} (E : Externals σ) (st : ModuleContour σ) (ns : XmlNode) : Serialized :=
  -- save stuff that the user can change.
  let (ns1, node) := ns.append_child "ContourFilter"
  let r1 := E.serialize st.ContourFilter.ptr st.ContourFilter.obj (ns1.nodeAt node) contourProperties
  let ns2 := ns1.write node r1.2
  let call1 := Event.helperSerialize st.ContourFilter.ptr (ns1.nodeAt node).name contourProperties
  if r1.1 == false then
    { ret := false
      ns := ns2.remove_child node
      log := [call1, .qWarning "Failed to serialize ContourFilter."] }
  else
    let (ns3, node) := ns2.append_child "ContourRepresentation"
    let r2 := E.serialize st.ContourRepresentation.ptr st.ContourRepresentation.obj (ns3.nodeAt node)
      contourRepresentationProperties
    let ns4 := ns3.write node r2.2
    let call2 := Event.helperSerialize st.ContourRepresentation.ptr (ns3.nodeAt node).name
      contourRepresentationProperties
    if r2.1 == false then
      { ret := false
        ns := ns4.remove_child node
        log := [call1, call2, .qWarning "Failed to serialize ContourRepresentation."] }
    else
      let r3 := E.superSerialize st ns4
      { ret := r3.1, ns := r3.2, log := [call1, call2, .superSerialize] }

/-- Embeds `ModuleContour::deserialize(ns)`: the three steps joined by the
short-circuit `&&`. -/
def deserialize {σ : Type} (E : Externals σ) (st : ModuleContour σ) (ns : XmlNode) :
    Deserialized σ :=
  let r1 := E.deserialize st.ContourFilter.ptr st.ContourFilter.obj (ns.child "ContourFilter")
  let st1 := { st with ContourFilter := { st.ContourFilter with obj := r1.2 } }
  let call1 := Event.helperDeserialize st.ContourFilter.ptr "ContourFilter"
  if r1.1 then
    let r2 := E.deserialize st1.ContourRepresentation.ptr st1.ContourRepresentation.obj
      (ns.child "ContourRepresentation")
    let st2 := { st1 with ContourRepresentation := { st1.ContourRepresentation with obj := r2.2 } }
    let call2 := Event.helperDeserialize st1.ContourRepresentation.ptr "ContourRepresentation"
    if r2.1 then
      let r3 := E.superDeserialize st2 ns
      { ret := r3.1, module := r3.2, log := [call1, call2, .superDeserialize] }
    else
      { ret := false, module := st2, log := [call1, call2] }
  else
    { ret := false, module := st1, log := [call1] }

/-- The element "ContourFilter" with what the helper writes into it for the
contour filter proxy and the property list ["ContourValues"]. -/
def contourFilterElement {σ : Type} (E : Externals σ) (st : ModuleContour σ) : XmlNode :=
  let written := (E.serialize st.ContourFilter.ptr st.ContourFilter.obj
    (.mk "ContourFilter" [] []) ["ContourValues"]).2
  .mk "ContourFilter" written.1 written.2

/-- The element "ContourRepresentation" with what the helper writes into it for
the representation proxy and the property list
["Representation", "Opacity", "Specular", "Visibility"]. -/
def contourRepresentationElement {σ : Type} (E : Externals σ) (st : ModuleContour σ) : XmlNode :=
  let written := (E.serialize st.ContourRepresentation.ptr st.ContourRepresentation.obj
    (.mk "ContourRepresentation" [] [])
    ["Representation", "Opacity", "Specular", "Visibility"]).2
  .mk "ContourRepresentation" written.1 written.2

/-- The node `ns` with further children at the end. -/
def XmlNode.withAppended (ns : XmlNode) (more : List XmlNode) : XmlNode :=
  .mk ns.name ns.attributes (ns.children ++ more)

/-- The module after the first step of `deserialize`: the helper has read the
contour filter from the child "ContourFilter" of `ns`. -/
def afterFilterStep {σ : Type} (E : Externals σ) (st : ModuleContour σ) (ns : XmlNode) :
    ModuleContour σ :=
  { st with ContourFilter := { st.ContourFilter with
      obj := (E.deserialize st.ContourFilter.ptr st.ContourFilter.obj
        (ns.child "ContourFilter")).2 } }

/-- The module after the second step of `deserialize`: the helper has also
read the representation from the child "ContourRepresentation" of `ns`. -/
def afterRepresentationStep {σ : Type} (E : Externals σ) (st : ModuleContour σ) (ns : XmlNode) :
    ModuleContour σ :=
  { afterFilterStep E st ns with ContourRepresentation := { st.ContourRepresentation with
      obj := (E.deserialize st.ContourRepresentation.ptr st.ContourRepresentation.obj
        (ns.child "ContourRepresentation")).2 } }

/-- Embeds `ModuleContour::isProxyPartOfModule(proxy)`. -/
def isProxyPartOfModule {σ : Type} (st : ModuleContour σ) (proxy : ProxyPtr) : Bool :=
  (proxy == st.ContourFilter.ptr) || (proxy == st.ContourRepresentation.ptr)
    || (proxy == st.ResampleFilter.ptr)

/-- Embeds `ModuleContour::getStringForProxy(proxy)`; the warning of the last branch is not modelled. -/
def getStringForProxy {σ : Type} (st : ModuleContour σ) (proxy : ProxyPtr) : String :=
  if proxy == st.ContourFilter.ptr then
    "Contour"
  else if proxy == st.ContourRepresentation.ptr then
    "Representation"
  else if proxy == st.ResampleFilter.ptr then
    "Resample"
  else
    ""

/-- Embeds `ModuleContour::getProxyForString(str)`. -/
def getProxyForString {σ : Type} (st : ModuleContour σ) (str : String) : ProxyPtr :=
  if str == "Resample" then
    st.ResampleFilter.ptr
  else if str == "Representation" then
    st.ContourRepresentation.ptr
  else if str == "Contour" then
    st.ContourFilter.ptr
  else
    nullptr

/-- Embeds `ModuleContour::setVisibility(val)`; `none` when the assertion fails. -/
def setVisibility {σ : Type} (st : ModuleContour σ) (val : Bool) : Option (Bool × ModuleContour σ) :=
  if st.ContourRepresentation.ptr = nullptr then none
  else
    let rep := vtkSMPropertyHelper.Set st.ContourRepresentation.obj "Visibility"
      (.ints [if val then 1 else 0])
    some (true, { st with ContourRepresentation :=
      { st.ContourRepresentation with obj := UpdateVTKObjects rep } })

/-- The buffer `vectorValues` of `ModuleContour::setIsoValues` after the
`push_back`: `values.size()` zeros, overwritten by the copy of `values`, then
one more `0`. -/
def setIsoValuesBuffer (values : List Double) : List Double :=
  let vectorValues := List.replicate values.length Double.zero
  let vectorValues := values ++ vectorValues.drop values.length
  vectorValues ++ [Double.zero]

/-- Embeds `&vectorValues[0]`: the storage from element 0 on; `none` when the vector
is empty (there is no element 0 to take the address of). -/
def addressOfFirst (vectorValues : List Double) : Option (List Double) :=
  match vectorValues with
  | [] => none
  | x :: rest => some (x :: rest)

/-- Embeds `ModuleContour::setIsoValues(values)`; `none` when element 0 of the buffer
does not exist. -/
def setIsoValues {σ : Type} (st : ModuleContour σ) (values : List Double) :
    Option (ModuleContour σ) :=
  match addressOfFirst (setIsoValuesBuffer values) with
  | none => none
  | some first =>
    let cf := vtkSMPropertyHelper.SetDoubles st.ContourFilter.obj "ContourValues" first
      values.length
    some { st with ContourFilter := { st.ContourFilter with obj := UpdateVTKObjects cf } }

/-- A widget with a layout: the rows of its form, and the range domains
(`pqWidgetRangeDomain`) that bound a control by the domain of a proxy property. -/
structure QWidget where
  layout : Option (List String)
  rangeDomains : List (String × ProxyPtr × String)

/-- The links `ModuleContour::addToPanel` adds with `Links.addPropertyLink`, in order. -/
def addToPanelLinks {σ : Type} (st : ModuleContour σ) : List PropertyLink :=
  [ { widget := "valueSlider", qtProperty := "value", signal := "valueEdited(double)",
      proxy := st.ContourFilter.ptr, property := "ContourValues" },
    { widget := "adaptor", qtProperty := "currentText", signal := "currentTextChanged(QString)",
      proxy := st.ContourRepresentation.ptr, property := "Representation" },
    { widget := "opacitySlider", qtProperty := "value", signal := "valueEdited(double)",
      proxy := st.ContourRepresentation.ptr, property := "Opacity" },
    { widget := "specularSlider", qtProperty := "value", signal := "valueEdited(double)",
      proxy := st.ContourRepresentation.ptr, property := "Specular" } ]

/-- Embeds `ModuleContour::addToPanel(panel)`; `none` when a `Q_ASSERT` fails. -/
def addToPanel {σ : Type} (st : ModuleContour σ) (panel : QWidget) :
    Option (QWidget × ModuleContour σ) :=
  if st.ContourFilter.ptr = nullptr then none
  else if st.ContourRepresentation.ptr = nullptr then none
  else
    let panel : QWidget := { panel with layout := none }
    let layout := ["Value", "Representation", "Opacity", "Specular"]
    let panel : QWidget := { panel with layout := some layout }
    let panel : QWidget := { panel with rangeDomains :=
      panel.rangeDomains ++ [("valueSlider", st.ContourFilter.ptr, "ContourValues")] }
    some (panel, { st with
      Internals := { st.Internals with Links := st.Internals.Links ++ addToPanelLinks st }
      connections := st.connections ++
        [("valueSlider", "dataUpdated"), ("representations", "dataUpdated"),
         ("opacitySlider", "dataUpdated"), ("specularSlider", "dataUpdated")] })

/-! ## A concrete instance

A small instance of the external code, used to evaluate the module on
concrete inputs: a helper pair that stores text-valued properties as
attributes, a superclass that records one attribute and whose state is the
`colorByLabelMap` flag, and a proxy manager that hands out the addresses 1
(FlyingEdges), 2 (Probe) and 3 (the representation). -/

/-- A proxy with no property set. -/
def blankProxy : ProxyState :=
  { properties := fun _ => .unset, vtkObjects := fun _ => .unset }

/-- A proxy whose properties hold the given texts. -/
def textProxy (values : List (String × String)) : ProxyState :=
  { properties := fun n =>
      match values.lookup n with
      | some v => .text v
      | none => .unset
    vtkObjects := fun _ => .unset }

/-- Whether a property value is a text. -/
def PropValue.isText : PropValue → Bool
  | .text _ => true
  | _ => false

/-- The text of a text value. -/
def PropValue.textOf : PropValue → String
  | .text v => v
  | _ => ""

/-- A helper `serialize`: fails on a null proxy and on a listed property that
is not a text; otherwise writes one attribute per listed property. -/
def exampleHelperSerialize (ptr : ProxyPtr) (obj : ProxyState) (_node : XmlNode)
    (props : List String) : Bool × XmlContent :=
  if ptr = nullptr then (false, ([], []))
  else if props.all (fun p => (obj.properties p).isText) then
    (true, (props.map (fun p => (p, (obj.properties p).textOf)), []))
  else (false, ([], []))

/-- A helper `deserialize`: fails on the empty handle; otherwise sets every
property that has an attribute. -/
def exampleHelperDeserialize (_ptr : ProxyPtr) (obj : ProxyState) (node : Option XmlNode) :
    Bool × ProxyState :=
  match node with
  | none => (false, obj)
  | some n =>
    (true, { obj with properties := fun p =>
      match n.attributes.lookup p with
      | some v => .text v
      | none => obj.properties p })

/-- The instance of the external code. -/
def exampleExternals : Externals Bool :=
  { serialize := exampleHelperSerialize
    deserialize := exampleHelperDeserialize
    superSerialize := fun _ ns =>
      (true, .mk ns.name (ns.attributes ++ [("use_detached_colormap", "0")]) ns.children)
    superDeserialize := fun m _ => (true, m)
    superInitialize := fun m _ _ => (true, m)
    colorMap := fun _ => 9
    colorByLabelMap := fun m => m.Superclass
    NewProxy := fun _ name =>
      if name = "FlyingEdges" then ⟨1, blankProxy⟩
      else if name = "Probe" then ⟨2, blankProxy⟩
      else ⟨nullptr, blankProxy⟩
    PreInitializeProxy := fun obj => obj
    PostInitializeProxy := fun obj => obj
    RegisterPipelineProxy := fun obj => obj
    Show := fun producer _ _ =>
      ⟨3, vtkSMPropertyHelper.Set blankProxy "Input" (.proxy producer.ptr)⟩ }

/-- A module as the constructor leaves it: no proxy yet. -/
def freshModule (colorByLabelMap : Bool) : ModuleContour Bool :=
  { Superclass := colorByLabelMap
    ContourFilter := ⟨nullptr, blankProxy⟩
    ContourRepresentation := ⟨nullptr, blankProxy⟩
    ResampleFilter := ⟨nullptr, blankProxy⟩
    Internals := { NonLabelMapArrayName := "", Links := [] }
    connections := [] }

/-- A module with its three proxies, whose saved properties hold texts. -/
def exampleModule : ModuleContour Bool :=
  { Superclass := false
    ContourFilter := ⟨1, textProxy [("ContourValues", "0.5")]⟩
    ContourRepresentation := ⟨3, textProxy [("Representation", "Surface"), ("Opacity", "1"),
      ("Specular", "0"), ("Visibility", "1")]⟩
    ResampleFilter := ⟨2, blankProxy⟩
    Internals := { NonLabelMapArrayName := "", Links := [] }
    connections := [] }

/-- The same module after the user changed every saved property. -/
def exampleModuleEdited : ModuleContour Bool :=
  { exampleModule with
    ContourFilter := ⟨1, textProxy [("ContourValues", "7")]⟩
    ContourRepresentation := ⟨3, textProxy [("Representation", "Points"), ("Opacity", "0.2"),
      ("Specular", "1"), ("Visibility", "0")]⟩ }

/-- A module whose representation has no "Opacity" value the helper can write. -/
def exampleModuleNoOpacity : ModuleContour Bool :=
  { exampleModule with
    ContourRepresentation := ⟨3, textProxy [("Representation", "Surface")]⟩ }

/-- An element `Module` with no attribute and no child. -/
def emptyNode : XmlNode := .mk "Module" [] []

theorem XmlNode.nodeAt_snoc (n : String) (a : List (String × String)) (cs : List XmlNode)
    (x : XmlNode) : (XmlNode.mk n a (cs ++ [x])).nodeAt cs.length = x := by
  simp [XmlNode.nodeAt, XmlNode.children, List.getD]

theorem XmlNode.write_snoc (n : String) (a : List (String × String)) (cs : List XmlNode)
    (x : XmlNode) (c : XmlContent) :
    (XmlNode.mk n a (cs ++ [x])).write cs.length c = .mk n a (cs ++ [.mk x.name c.1 c.2]) := by
  simp [XmlNode.nodeAt, XmlNode.children, XmlNode.write, XmlNode.name, XmlNode.attributes,
    List.getD]

theorem XmlNode.remove_child_snoc (n : String) (a : List (String × String)) (cs : List XmlNode)
    (x : XmlNode) : (XmlNode.mk n a (cs ++ [x])).remove_child cs.length = .mk n a cs := by
  simp [XmlNode.remove_child, XmlNode.children, XmlNode.name, XmlNode.attributes,
    List.eraseIdx_append_of_length_le (Nat.le_refl _)]

theorem XmlNode.child_snoc_of_some (n : String) (a : List (String × String))
    (cs rest : List XmlNode) (name : String) (c : XmlNode)
    (h : (XmlNode.mk n a cs).child name = some c) :
    (XmlNode.mk n a (cs ++ rest)).child name = some c := by
  simp only [XmlNode.child, XmlNode.children] at h ⊢
  simp [List.find?_append, h]

/-! ## Proxy names -/

/-- C8: with the three proxy handles pairwise distinct and non-null,
`getStringForProxy` and `getProxyForString` are mutually inverse on the
module's proxies: a proxy of the module maps to its name and back; each of
the names "Contour", "Representation", "Resample" maps to its proxy and back;
`getProxyForString` returns null exactly for the other strings; and
`getStringForProxy` returns the empty string exactly for the proxies that
are not part of the module. -/
theorem getStringForProxy_getProxyForString_inverse {σ : Type} (st : ModuleContour σ)
    (hfr : st.ContourFilter.ptr ≠ st.ContourRepresentation.ptr)
    (hfs : st.ContourFilter.ptr ≠ st.ResampleFilter.ptr)
    (hrs : st.ContourRepresentation.ptr ≠ st.ResampleFilter.ptr)
    (hf : st.ContourFilter.ptr ≠ nullptr)
    (hr : st.ContourRepresentation.ptr ≠ nullptr)
    (hs : st.ResampleFilter.ptr ≠ nullptr) :
    (∀ p : ProxyPtr, isProxyPartOfModule st p = true →
        getProxyForString st (getStringForProxy st p) = p) ∧
    (∀ s : String, s = "Contour" ∨ s = "Representation" ∨ s = "Resample" →
        getStringForProxy st (getProxyForString st s) = s) ∧
    (∀ s : String, getProxyForString st s = nullptr ↔
        (s ≠ "Contour" ∧ s ≠ "Representation" ∧ s ≠ "Resample")) ∧
    (∀ p : ProxyPtr, getStringForProxy st p = "" ↔ isProxyPartOfModule st p = false) := by
  refine ⟨?_, ?_, ?_, ?_⟩
  · intro p hp
    simp only [isProxyPartOfModule, Bool.or_eq_true, beq_iff_eq] at hp
    unfold getStringForProxy
    by_cases h1 : p = st.ContourFilter.ptr
    · simp [h1, getProxyForString]
    · by_cases h2 : p = st.ContourRepresentation.ptr
      · simp [h2, getProxyForString, Ne.symm hfr]
      · have h3 : p = st.ResampleFilter.ptr := by tauto
        simp [h3, getProxyForString, Ne.symm hfs, Ne.symm hrs]
  · rintro s (rfl | rfl | rfl)
    · simp [getProxyForString, getStringForProxy]
    · simp [getProxyForString, getStringForProxy, Ne.symm hfr]
    · simp [getProxyForString, getStringForProxy, Ne.symm hfs, Ne.symm hrs]
  · intro s
    unfold getProxyForString
    by_cases h1 : s = "Resample"
    · simp [h1, hs]
    · by_cases h2 : s = "Representation"
      · simp [h2, hr]
      · by_cases h3 : s = "Contour"
        · simp [h3, hf]
        · simp [h1, h2, h3]
  · intro p
    unfold getStringForProxy isProxyPartOfModule
    by_cases h1 : p = st.ContourFilter.ptr
    · simp [h1]
    · by_cases h2 : p = st.ContourRepresentation.ptr
      · simp [h2, Ne.symm hfr]
      · by_cases h3 : p = st.ResampleFilter.ptr
        · simp [h3, Ne.symm hfs, Ne.symm hrs]
        · simp [h1, h2, h3]

/-! ## Iso values -/

/-- C7: for every list `values`, the empty one included, the buffer of
`setIsoValues` has length `values.size() + 1`, so its element 0 exists and
the call goes through; the buffer is `values` followed by the padding `0`;
and "ContourValues" of the contour filter becomes exactly `values`, in
order, without the padding. -/
theorem setIsoValues_sets_exactly_values {σ : Type} (st : ModuleContour σ)
    (values : List Double) :
    (setIsoValuesBuffer values).length = values.length + 1 ∧
    setIsoValuesBuffer values = values ++ [Double.zero] ∧
    (∃ first, addressOfFirst (setIsoValuesBuffer values) = some first) ∧
    (∃ st', setIsoValues st values = some st' ∧
      st'.ContourFilter.obj.properties "ContourValues" = .doubles values ∧
      st'.ContourFilter.obj.vtkObjects "ContourValues" = .doubles values ∧
      st'.ContourFilter.ptr = st.ContourFilter.ptr) := by
  have hbuf : setIsoValuesBuffer values = values ++ [Double.zero] := by
    simp [setIsoValuesBuffer]
  have haddr : addressOfFirst (values ++ [Double.zero]) = some (values ++ [Double.zero]) := by
    cases values <;> rfl
  refine ⟨by simp [hbuf], hbuf, ⟨_, by rw [hbuf]; exact haddr⟩, ?_⟩
  simp [setIsoValues, hbuf, haddr, vtkSMPropertyHelper.SetDoubles, vtkSMPropertyHelper.Set,
    UpdateVTKObjects]

/-! ## Serialization -/

/-- The three ways `serialize` ends, with the handle operations carried out. -/
theorem serialize_eq {σ : Type} (E : Externals σ) (st : ModuleContour σ) (ns : XmlNode) :
    serialize E st ns =
      if (E.serialize st.ContourFilter.ptr st.ContourFilter.obj (.mk "ContourFilter" [] [])
          ["ContourValues"]).1 = false then
        { ret := false
          ns := ns
          log := [.helperSerialize st.ContourFilter.ptr "ContourFilter" ["ContourValues"],
                  .qWarning "Failed to serialize ContourFilter."] }
      else if (E.serialize st.ContourRepresentation.ptr st.ContourRepresentation.obj
          (.mk "ContourRepresentation" [] [])
          ["Representation", "Opacity", "Specular", "Visibility"]).1 = false then
        { ret := false
          ns := ns.withAppended [contourFilterElement E st]
          log := [.helperSerialize st.ContourFilter.ptr "ContourFilter" ["ContourValues"],
                  .helperSerialize st.ContourRepresentation.ptr "ContourRepresentation"
                    ["Representation", "Opacity", "Specular", "Visibility"],
                  .qWarning "Failed to serialize ContourRepresentation."] }
      else
        { ret := (E.superSerialize st (ns.withAppended
            [contourFilterElement E st, contourRepresentationElement E st])).1
          ns := (E.superSerialize st (ns.withAppended
            [contourFilterElement E st, contourRepresentationElement E st])).2
          log := [.helperSerialize st.ContourFilter.ptr "ContourFilter" ["ContourValues"],
                  .helperSerialize st.ContourRepresentation.ptr "ContourRepresentation"
                    ["Representation", "Opacity", "Specular", "Visibility"],
                  .superSerialize] } := by
  cases ns with
  | mk n a cs =>
    simp only [serialize, XmlNode.append_child, XmlNode.children, XmlNode.name,
      XmlNode.attributes, XmlNode.nodeAt_snoc, XmlNode.write_snoc, XmlNode.remove_child_snoc,
      contourProperties, contourRepresentationProperties, contourFilterElement,
      contourRepresentationElement, XmlNode.withAppended, beq_iff_eq]
    simp only [List.append_assoc, List.singleton_append]

/-- C1: when both calls of the helper `tomviz::serialize` succeed,
`ModuleContour::serialize(ns)` makes exactly these calls, in this order: the
helper for the contour filter proxy on a new element "ContourFilter" with the
list ["ContourValues"], the helper for the representation proxy on a new
element "ContourRepresentation" with the list ["Representation", "Opacity",
"Specular", "Visibility"], and the superclass `serialize`; the node the
superclass receives is `ns` with exactly those two elements appended, in that
order; and the return value and the final node are the superclass's. -/
theorem serialize_appends_filter_then_representation {σ : Type} (E : Externals σ)
    (st : ModuleContour σ) (ns : XmlNode)
    (h1 : (E.serialize st.ContourFilter.ptr st.ContourFilter.obj (.mk "ContourFilter" [] [])
      ["ContourValues"]).1 = true)
    (h2 : (E.serialize st.ContourRepresentation.ptr st.ContourRepresentation.obj
      (.mk "ContourRepresentation" [] [])
      ["Representation", "Opacity", "Specular", "Visibility"]).1 = true) :
    (serialize E st ns).log =
      [.helperSerialize st.ContourFilter.ptr "ContourFilter" ["ContourValues"],
       .helperSerialize st.ContourRepresentation.ptr "ContourRepresentation"
         ["Representation", "Opacity", "Specular", "Visibility"],
       .superSerialize] ∧
    (serialize E st ns).ret = (E.superSerialize st (ns.withAppended
      [contourFilterElement E st, contourRepresentationElement E st])).1 ∧
    (serialize E st ns).ns = (E.superSerialize st (ns.withAppended
      [contourFilterElement E st, contourRepresentationElement E st])).2 ∧
    (ns.withAppended [contourFilterElement E st, contourRepresentationElement E st]).children
      = ns.children ++ [contourFilterElement E st, contourRepresentationElement E st] ∧
    (contourFilterElement E st).name = "ContourFilter" ∧
    (contourRepresentationElement E st).name = "ContourRepresentation" := by
  rw [serialize_eq]
  simp [h1, h2, XmlNode.withAppended, XmlNode.children, contourFilterElement,
    contourRepresentationElement, XmlNode.name]

/-- C3: a failure of the helper is reported by a false return and aborts the
operation. If the helper fails for the contour filter, `serialize` returns
false, the node is `ns` again (the "ContourFilter" element just appended is
removed), and the only calls were that helper call and the warning: no
"ContourRepresentation" element, no superclass `serialize`. If the helper
succeeds for the contour filter and fails for the representation, `serialize`
returns false, the "ContourRepresentation" element just appended is removed
(the node is `ns` with the "ContourFilter" element only), and the superclass
`serialize` is not called. -/
theorem serialize_helper_failure_aborts {σ : Type} (E : Externals σ) (st : ModuleContour σ)
    (ns : XmlNode) :
    ((E.serialize st.ContourFilter.ptr st.ContourFilter.obj (.mk "ContourFilter" [] [])
        ["ContourValues"]).1 = false →
      (serialize E st ns).ret = false ∧
      (serialize E st ns).ns = ns ∧
      (serialize E st ns).log =
        [.helperSerialize st.ContourFilter.ptr "ContourFilter" ["ContourValues"],
         .qWarning "Failed to serialize ContourFilter."]) ∧
    ((E.serialize st.ContourFilter.ptr st.ContourFilter.obj (.mk "ContourFilter" [] [])
        ["ContourValues"]).1 = true →
     (E.serialize st.ContourRepresentation.ptr st.ContourRepresentation.obj
        (.mk "ContourRepresentation" [] [])
        ["Representation", "Opacity", "Specular", "Visibility"]).1 = false →
      (serialize E st ns).ret = false ∧
      (serialize E st ns).ns = ns.withAppended [contourFilterElement E st] ∧
      (ns.withAppended [contourFilterElement E st]).children
        = ns.children ++ [contourFilterElement E st] ∧
      (serialize E st ns).log =
        [.helperSerialize st.ContourFilter.ptr "ContourFilter" ["ContourValues"],
         .helperSerialize st.ContourRepresentation.ptr "ContourRepresentation"
           ["Representation", "Opacity", "Specular", "Visibility"],
         .qWarning "Failed to serialize ContourRepresentation."]) := by
  constructor
  · intro h1
    rw [serialize_eq]
    simp [h1]
  · intro h1 h2
    rw [serialize_eq]
    simp [h1, h2, XmlNode.withAppended, XmlNode.children]

/-- The three ways `deserialize` ends. -/
theorem deserialize_eq {σ : Type} (E : Externals σ) (st : ModuleContour σ) (ns : XmlNode) :
    deserialize E st ns =
      if (E.deserialize st.ContourFilter.ptr st.ContourFilter.obj
          (ns.child "ContourFilter")).1 = true then
        if (E.deserialize st.ContourRepresentation.ptr st.ContourRepresentation.obj
            (ns.child "ContourRepresentation")).1 = true then
          { ret := (E.superDeserialize (afterRepresentationStep E st ns) ns).1
            module := (E.superDeserialize (afterRepresentationStep E st ns) ns).2
            log := [.helperDeserialize st.ContourFilter.ptr "ContourFilter",
                    .helperDeserialize st.ContourRepresentation.ptr "ContourRepresentation",
                    .superDeserialize] }
        else
          { ret := false
            module := afterRepresentationStep E st ns
            log := [.helperDeserialize st.ContourFilter.ptr "ContourFilter",
                    .helperDeserialize st.ContourRepresentation.ptr "ContourRepresentation"] }
      else
        { ret := false
          module := afterFilterStep E st ns
          log := [.helperDeserialize st.ContourFilter.ptr "ContourFilter"] } := by
  simp only [deserialize, afterFilterStep, afterRepresentationStep]

/-- C4: `ModuleContour::deserialize(ns)` returns true if and only if the helper
`deserialize` of the contour filter from the child "ContourFilter", the helper
`deserialize` of the representation from the child "ContourRepresentation"
and the superclass `deserialize` of `ns` all return true. The steps run in
that order and the first failure ends the operation: when the contour filter
step fails, it is the only call made and the representation proxy is as
before; when the representation step fails, the superclass is not called;
otherwise the result is the superclass's. -/
theorem deserialize_true_iff_all_steps_true {σ : Type} (E : Externals σ)
    (st : ModuleContour σ) (ns : XmlNode) :
    ((deserialize E st ns).ret = true ↔
      ((E.deserialize st.ContourFilter.ptr st.ContourFilter.obj
          (ns.child "ContourFilter")).1 = true ∧
       (E.deserialize st.ContourRepresentation.ptr st.ContourRepresentation.obj
          (ns.child "ContourRepresentation")).1 = true ∧
       (E.superDeserialize (afterRepresentationStep E st ns) ns).1 = true)) ∧
    ((E.deserialize st.ContourFilter.ptr st.ContourFilter.obj
        (ns.child "ContourFilter")).1 = false →
      (deserialize E st ns).ret = false ∧
      (deserialize E st ns).log = [.helperDeserialize st.ContourFilter.ptr "ContourFilter"] ∧
      (deserialize E st ns).module = afterFilterStep E st ns ∧
      (deserialize E st ns).module.ContourRepresentation = st.ContourRepresentation) ∧
    ((E.deserialize st.ContourFilter.ptr st.ContourFilter.obj
        (ns.child "ContourFilter")).1 = true →
     (E.deserialize st.ContourRepresentation.ptr st.ContourRepresentation.obj
        (ns.child "ContourRepresentation")).1 = false →
      (deserialize E st ns).ret = false ∧
      (deserialize E st ns).log =
        [.helperDeserialize st.ContourFilter.ptr "ContourFilter",
         .helperDeserialize st.ContourRepresentation.ptr "ContourRepresentation"] ∧
      (deserialize E st ns).module = afterRepresentationStep E st ns) ∧
    ((E.deserialize st.ContourFilter.ptr st.ContourFilter.obj
        (ns.child "ContourFilter")).1 = true →
     (E.deserialize st.ContourRepresentation.ptr st.ContourRepresentation.obj
        (ns.child "ContourRepresentation")).1 = true →
      (deserialize E st ns).ret = (E.superDeserialize (afterRepresentationStep E st ns) ns).1 ∧
      (deserialize E st ns).log =
        [.helperDeserialize st.ContourFilter.ptr "ContourFilter",
         .helperDeserialize st.ContourRepresentation.ptr "ContourRepresentation",
         .superDeserialize] ∧
      (deserialize E st ns).module =
        (E.superDeserialize (afterRepresentationStep E st ns) ns).2) := by
  rw [deserialize_eq]
  refine ⟨?_, ?_, ?_, ?_⟩
  · by_cases h1 : (E.deserialize st.ContourFilter.ptr st.ContourFilter.obj
        (ns.child "ContourFilter")).1 = true
    · by_cases h2 : (E.deserialize st.ContourRepresentation.ptr st.ContourRepresentation.obj
          (ns.child "ContourRepresentation")).1 = true
      · simp [h1, h2]
      · simp [h1, h2]
    · simp [h1]
  · intro h1
    simp [h1, afterFilterStep]
  · intro h1 h2
    simp [h1, h2]
  · intro h1 h2
    simp [h1, h2]

/-! ## The panel -/

/-- C5: `serialize` saves everything the user can change from the panel: a
link that `addToPanel` adds ties a control to a property of a proxy, and in a
run of `serialize` that gets past the contour filter the helper is called for
that same proxy with a property list that contains that property. The pairs
are (contour filter, "ContourValues"), (representation, "Representation"),
(representation, "Opacity") and (representation, "Specular"). -/
theorem serialize_saves_what_addToPanel_links {σ : Type} (E : Externals σ)
    (st st' : ModuleContour σ) (panel panel' : QWidget) (ns : XmlNode) (l : PropertyLink)
    (hadd : addToPanel st panel = some (panel', st'))
    (hl : l ∈ st'.Internals.Links) (hnew : l ∉ st.Internals.Links)
    (h1 : (E.serialize st.ContourFilter.ptr st.ContourFilter.obj (.mk "ContourFilter" [] [])
      ["ContourValues"]).1 = true) :
    ((l.proxy = st.ContourFilter.ptr ∧ l.property = "ContourValues") ∨
     (l.proxy = st.ContourRepresentation.ptr ∧ l.property = "Representation") ∨
     (l.proxy = st.ContourRepresentation.ptr ∧ l.property = "Opacity") ∨
     (l.proxy = st.ContourRepresentation.ptr ∧ l.property = "Specular")) ∧
    ∃ element properties,
      Event.helperSerialize l.proxy element properties ∈ (serialize E st ns).log ∧
      l.property ∈ properties := by
  have hmem : l ∈ addToPanelLinks st := by
    unfold addToPanel at hadd
    split_ifs at hadd
    simp only [Option.some.injEq, Prod.mk.injEq] at hadd
    obtain ⟨-, rfl⟩ := hadd
    simp only [List.mem_append] at hl
    exact hl.resolve_left hnew
  simp only [addToPanelLinks, List.mem_cons, List.mem_singleton, List.not_mem_nil,
    or_false] at hmem
  rw [serialize_eq]
  by_cases h2 : (E.serialize st.ContourRepresentation.ptr st.ContourRepresentation.obj
      (.mk "ContourRepresentation" [] [])
      ["Representation", "Opacity", "Specular", "Visibility"]).1 = true
  · rcases hmem with rfl | rfl | rfl | rfl
    · exact ⟨by simp, "ContourFilter", ["ContourValues"], by simp [h1, h2], by simp⟩
    · exact ⟨by simp, "ContourRepresentation",
        ["Representation", "Opacity", "Specular", "Visibility"], by simp [h1, h2], by simp⟩
    · exact ⟨by simp, "ContourRepresentation",
        ["Representation", "Opacity", "Specular", "Visibility"], by simp [h1, h2], by simp⟩
    · exact ⟨by simp, "ContourRepresentation",
        ["Representation", "Opacity", "Specular", "Visibility"], by simp [h1, h2], by simp⟩
  · rcases hmem with rfl | rfl | rfl | rfl
    · exact ⟨by simp, "ContourFilter", ["ContourValues"], by simp [h1, h2], by simp⟩
    · exact ⟨by simp, "ContourRepresentation",
        ["Representation", "Opacity", "Specular", "Visibility"], by simp [h1, h2], by simp⟩
    · exact ⟨by simp, "ContourRepresentation",
        ["Representation", "Opacity", "Specular", "Visibility"], by simp [h1, h2], by simp⟩
    · exact ⟨by simp, "ContourRepresentation",
        ["Representation", "Opacity", "Specular", "Visibility"], by simp [h1, h2], by simp⟩

/-! ## Round trip -/

theorem XmlNode.child_withAppended_of_none (ns : XmlNode) (more : List XmlNode) (name : String)
    (h : ns.child name = none) :
    (ns.withAppended more).child name = more.find? (fun c => c.name == name) := by
  simp only [XmlNode.child, XmlNode.withAppended, XmlNode.children] at h ⊢
  simp [List.find?_append, h]

/-- C2: round trip. Assume the helper pair round-trips the listed properties
of one proxy through one element, the superclass `serialize` keeps the child
elements that are there and the superclass `deserialize` succeeds without
changing the five saved properties. Let `ns` have no child "ContourFilter" and
no child "ContourRepresentation" (an empty node, say). If `serialize(ns)`
returns true, then `deserialize` of the resulting node, in a state `st'` of
the same proxies, returns true and leaves "ContourValues" of the contour filter
and "Representation", "Opacity", "Specular", "Visibility" of the
representation at the values they had in the state `st` that was serialized;
the children "ContourFilter" and "ContourRepresentation" that `deserialize`
looks up are the elements `serialize` wrote for the contour filter and for the
representation. -/
theorem serialize_deserialize_round_trip {σ : Type} (E : Externals σ)
    (st st' : ModuleContour σ) (ns : XmlNode)
    (hF : ns.child "ContourFilter" = none)
    (hR : ns.child "ContourRepresentation" = none)
    (hhelper : ∀ (ptr : ProxyPtr) (obj obj' : ProxyState) (name : String) (props : List String),
      (E.serialize ptr obj (.mk name [] []) props).1 = true →
      (E.deserialize ptr obj' (some (.mk name
          (E.serialize ptr obj (.mk name [] []) props).2.1
          (E.serialize ptr obj (.mk name [] []) props).2.2))).1 = true ∧
      ∀ p ∈ props, (E.deserialize ptr obj' (some (.mk name
          (E.serialize ptr obj (.mk name [] []) props).2.1
          (E.serialize ptr obj (.mk name [] []) props).2.2))).2.properties p
        = obj.properties p)
    (hsuperS : ∀ (m : ModuleContour σ) (n c : XmlNode) (name : String),
      n.child name = some c → (E.superSerialize m n).2.child name = some c)
    (hsuperD : ∀ (m : ModuleContour σ) (n : XmlNode),
      (E.superDeserialize m n).1 = true ∧
      (E.superDeserialize m n).2.ContourFilter.obj.properties "ContourValues"
        = m.ContourFilter.obj.properties "ContourValues" ∧
      ∀ p ∈ ["Representation", "Opacity", "Specular", "Visibility"],
        (E.superDeserialize m n).2.ContourRepresentation.obj.properties p
          = m.ContourRepresentation.obj.properties p)
    (hptrF : st'.ContourFilter.ptr = st.ContourFilter.ptr)
    (hptrR : st'.ContourRepresentation.ptr = st.ContourRepresentation.ptr)
    (hok : (serialize E st ns).ret = true) :
    (deserialize E st' (serialize E st ns).ns).ret = true ∧
    (deserialize E st' (serialize E st ns).ns).module.ContourFilter.obj.properties
        "ContourValues" = st.ContourFilter.obj.properties "ContourValues" ∧
    (∀ p ∈ ["Representation", "Opacity", "Specular", "Visibility"],
      (deserialize E st' (serialize E st ns).ns).module.ContourRepresentation.obj.properties p
        = st.ContourRepresentation.obj.properties p) ∧
    (serialize E st ns).ns.child "ContourFilter" = some (contourFilterElement E st) ∧
    (serialize E st ns).ns.child "ContourRepresentation"
      = some (contourRepresentationElement E st) := by
  -- serialize succeeded, so both helper calls did
  have h1 : (E.serialize st.ContourFilter.ptr st.ContourFilter.obj (.mk "ContourFilter" [] [])
      ["ContourValues"]).1 = true := by
    by_contra h
    rw [serialize_eq] at hok
    simp [h] at hok
  have h2 : (E.serialize st.ContourRepresentation.ptr st.ContourRepresentation.obj
      (.mk "ContourRepresentation" [] [])
      ["Representation", "Opacity", "Specular", "Visibility"]).1 = true := by
    by_contra h
    rw [serialize_eq] at hok
    simp [h1, h] at hok
  have hns : (serialize E st ns).ns = (E.superSerialize st (ns.withAppended
      [contourFilterElement E st, contourRepresentationElement E st])).2 := by
    rw [serialize_eq]
    simp [h1, h2]
  -- the children deserialize will find
  have hcF : (serialize E st ns).ns.child "ContourFilter" = some (contourFilterElement E st) := by
    rw [hns]
    apply hsuperS
    rw [XmlNode.child_withAppended_of_none _ _ _ hF]
    simp [contourFilterElement, XmlNode.name]
  have hcR : (serialize E st ns).ns.child "ContourRepresentation"
      = some (contourRepresentationElement E st) := by
    rw [hns]
    apply hsuperS
    rw [XmlNode.child_withAppended_of_none _ _ _ hR]
    simp [contourFilterElement, contourRepresentationElement, XmlNode.name]
  -- the helper reads back what it wrote
  have rtF := hhelper st.ContourFilter.ptr st.ContourFilter.obj st'.ContourFilter.obj
    "ContourFilter" ["ContourValues"] h1
  have rtR := hhelper st.ContourRepresentation.ptr st.ContourRepresentation.obj
    st'.ContourRepresentation.obj "ContourRepresentation"
    ["Representation", "Opacity", "Specular", "Visibility"] h2
  have dF : (E.deserialize st'.ContourFilter.ptr st'.ContourFilter.obj
      ((serialize E st ns).ns.child "ContourFilter")).1 = true := by
    rw [hcF, hptrF]; exact rtF.1
  have dR : (E.deserialize st'.ContourRepresentation.ptr st'.ContourRepresentation.obj
      ((serialize E st ns).ns.child "ContourRepresentation")).1 = true := by
    rw [hcR, hptrR]; exact rtR.1
  have hsup := hsuperD (afterRepresentationStep E st' (serialize E st ns).ns)
    (serialize E st ns).ns
  refine ⟨?_, ?_, ?_, hcF, hcR⟩
  · rw [deserialize_eq]
    simp only [dF, dR, if_true]
    exact hsup.1
  · rw [deserialize_eq]
    simp only [dF, dR, if_true]
    rw [hsup.2.1]
    simp only [afterRepresentationStep, afterFilterStep]
    rw [hcF, hptrF]
    exact rtF.2 "ContourValues" (by simp)
  · intro p hp
    rw [deserialize_eq]
    simp only [dF, dR, if_true]
    rw [hsup.2.2 p hp]
    simp only [afterRepresentationStep, afterFilterStep]
    rw [hcR, hptrR]
    exact rtR.2 p hp

/-! ## Initialization -/

/-- C1 at the example module: both helper calls succeed on an empty node. -/
theorem serialize_appends_filter_then_representation_witness :
    (serialize exampleExternals exampleModule emptyNode).log =
      [.helperSerialize 1 "ContourFilter" ["ContourValues"],
       .helperSerialize 3 "ContourRepresentation"
         ["Representation", "Opacity", "Specular", "Visibility"],
       .superSerialize] ∧
    (serialize exampleExternals exampleModule emptyNode).ret = true :=
  have h := serialize_appends_filter_then_representation exampleExternals exampleModule
    emptyNode (by decide) (by decide)
  ⟨h.1, h.2.1⟩

/-- C3 at a module without proxies (the helper fails for the contour filter)
and at a module whose representation cannot be written. -/
theorem serialize_helper_failure_aborts_witness :
    ((serialize exampleExternals (freshModule false) emptyNode).ret = false ∧
     (serialize exampleExternals (freshModule false) emptyNode).ns = emptyNode) ∧
    ((serialize exampleExternals exampleModuleNoOpacity emptyNode).ret = false ∧
     (serialize exampleExternals exampleModuleNoOpacity emptyNode).log =
       [.helperSerialize 1 "ContourFilter" ["ContourValues"],
        .helperSerialize 3 "ContourRepresentation"
          ["Representation", "Opacity", "Specular", "Visibility"],
        .qWarning "Failed to serialize ContourRepresentation."]) :=
  have h1 := (serialize_helper_failure_aborts exampleExternals (freshModule false)
    emptyNode).1 (by decide)
  have h2 := (serialize_helper_failure_aborts exampleExternals exampleModuleNoOpacity
    emptyNode).2 (by decide) (by decide)
  ⟨⟨h1.1, h1.2.1⟩, ⟨h2.1, h2.2.2.2⟩⟩

/-- C4 at a node without a child "ContourFilter": the first step fails and is
the only call. -/
theorem deserialize_true_iff_all_steps_true_witness :
    (deserialize exampleExternals exampleModule emptyNode).ret = false ∧
    (deserialize exampleExternals exampleModule emptyNode).log =
      [.helperDeserialize 1 "ContourFilter"] :=
  have h := (deserialize_true_iff_all_steps_true exampleExternals exampleModule
    emptyNode).2.1 (by decide)
  ⟨h.1, h.2.1⟩

/-- C5 at the example module: the link of the opacity slider. -/
theorem serialize_saves_what_addToPanel_links_witness :
    ∃ element properties,
      Event.helperSerialize 3 element properties
        ∈ (serialize exampleExternals exampleModule emptyNode).log ∧
      "Opacity" ∈ properties :=
  (serialize_saves_what_addToPanel_links exampleExternals exampleModule _ ⟨none, []⟩ _ emptyNode
    { widget := "opacitySlider", qtProperty := "value", signal := "valueEdited(double)",
      proxy := 3, property := "Opacity" }
    rfl (by decide) (by decide) (by decide)).2

/-- C8 at the example module, whose proxies are at the addresses 1, 3 and 2. -/
theorem getStringForProxy_getProxyForString_inverse_witness :
    getProxyForString exampleModule (getStringForProxy exampleModule 2) = 2 ∧
    getStringForProxy exampleModule (getProxyForString exampleModule "Resample") = "Resample" :=
  have h := getStringForProxy_getProxyForString_inverse exampleModule
    (by decide) (by decide) (by decide) (by decide) (by decide) (by decide)
  ⟨h.1 2 (by decide), h.2.1 "Resample" (Or.inr (Or.inr rfl))⟩

theorem List.lookup_map_self {β : Type} (f : String → β) (props : List String) (p : String)
    (hp : p ∈ props) : (props.map (fun q => (q, f q))).lookup p = some (f p) := by
  induction props with
  | nil => simp at hp
  | cons q rest ih =>
    simp only [List.map_cons, List.lookup_cons]
    by_cases hq : p = q
    · subst hq
      simp
    · have hne : (p == q) = false := by simpa using hq
      rw [hne]
      exact ih (by simpa [hq] using hp)

theorem PropValue.text_textOf (v : PropValue) (h : v.isText = true) : .text v.textOf = v := by
  cases v <;> simp_all [PropValue.isText, PropValue.textOf]

/-- The example helper pair round-trips the listed properties of a proxy through an element. -/
theorem exampleHelper_round_trip (ptr : ProxyPtr) (obj obj' : ProxyState) (name : String)
    (props : List String)
    (h : (exampleExternals.serialize ptr obj (.mk name [] []) props).1 = true) :
    (exampleExternals.deserialize ptr obj' (some (.mk name
        (exampleExternals.serialize ptr obj (.mk name [] []) props).2.1
        (exampleExternals.serialize ptr obj (.mk name [] []) props).2.2))).1 = true ∧
    ∀ p ∈ props, (exampleExternals.deserialize ptr obj' (some (.mk name
        (exampleExternals.serialize ptr obj (.mk name [] []) props).2.1
        (exampleExternals.serialize ptr obj (.mk name [] []) props).2.2))).2.properties p
      = obj.properties p := by
  simp only [exampleExternals, exampleHelperSerialize] at h ⊢
  by_cases hnull : ptr = nullptr
  · simp [hnull] at h
  · by_cases hall : (props.all fun p => (obj.properties p).isText) = true
    · simp only [hnull, hall, if_false, if_true, exampleHelperDeserialize, XmlNode.attributes,
        true_and]
      intro p hp
      rw [List.lookup_map_self _ props p hp]
      exact PropValue.text_textOf _ (List.all_eq_true.mp hall p hp)
    · simp [hnull, hall] at h

/-- The example superclass keeps the children of the node it writes to. -/
theorem exampleSuper_keeps_children (m : ModuleContour Bool) (n c : XmlNode) (name : String)
    (h : n.child name = some c) : (exampleExternals.superSerialize m n).2.child name = some c := by
  simpa [exampleExternals, XmlNode.child, XmlNode.children] using h

/-- C2 at the example module: it is serialized into an empty node, the user
changes every saved property, and `deserialize` brings the saved values back. -/
theorem serialize_deserialize_round_trip_witness :
    (deserialize exampleExternals exampleModuleEdited
      (serialize exampleExternals exampleModule emptyNode).ns).ret = true ∧
    (deserialize exampleExternals exampleModuleEdited
      (serialize exampleExternals exampleModule emptyNode).ns).module.ContourFilter.obj.properties
        "ContourValues" = .text "0.5" ∧
    (deserialize exampleExternals exampleModuleEdited
      (serialize exampleExternals exampleModule
        emptyNode).ns).module.ContourRepresentation.obj.properties "Opacity" = .text "1" ∧
    exampleModuleEdited.ContourRepresentation.obj.properties "Opacity" = .text "0.2" := by
  have h := serialize_deserialize_round_trip exampleExternals exampleModule exampleModuleEdited
    emptyNode rfl rfl exampleHelper_round_trip exampleSuper_keeps_children
    (fun m _ => ⟨rfl, rfl, fun _ _ => rfl⟩) rfl rfl (by decide)
  exact ⟨h.1, h.2.1.trans (by decide), (h.2.2.1 "Opacity" (by simp)).trans (by decide),
    by decide⟩

end tomviz
